import Mathlib

/-!
Verification of the demo HTTP server of the prometheus-workshop repository.

The embedding follows `main.go` (the instrumented blog server: the wrapped
response writer, the three Prometheus series, the hit counter, the two
middlewares and the router) and the `handleMetrics` remote-write decoder
shown in the repository's README. Stateful Go code is modelled as explicit
state passing over a `MetricsState` record; the HTTP status-write side
channel of a handler is modelled as the list of `WriteHeader` calls the
handler performs, in order.
-/

namespace PromWorkshop

/-- Embeds the `responseWriter` struct of `main.go`: it decorates an
`http.ResponseWriter` and remembers the status code. Only the remembered
code matters to the metrics, so the model keeps just that field. -/
structure responseWriter where
  statusCode : Nat
deriving Repr, DecidableEq

/-- Embeds `NewResponseWriter`: the wrapper starts at `http.StatusOK` (200). -/
def NewResponseWriter : responseWriter := ⟨200⟩

/-- Embeds `(rw *responseWriter).WriteHeader(code)`: the wrapper overwrites
its remembered status code with `code` before delegating. -/
def WriteHeader (rw : responseWriter) (code : Nat) : responseWriter :=
  { rw with statusCode := code }

/-- The status code the wrapper holds after the inner handler performed the
given sequence of explicit `WriteHeader` calls: the fold of `WriteHeader`
over the calls, starting from `NewResponseWriter`. -/
def recordedStatus (writes : List Nat) : Nat :=
  (writes.foldl WriteHeader NewResponseWriter).statusCode

/-- The mutable global state of `main.go`: the three Prometheus series
(`totalRequests` keyed by path, `responseStatus` keyed by the status code
rendered as a string via `strconv.Itoa`, and the observation count of the
`httpDuration` histogram keyed by path) together with the plain hit
counter `count`. -/
structure MetricsState where
  totalRequests : String → Nat
  responseStatus : String → Nat
  httpDuration : String → Nat
  count : Nat

/-- The state at process start: every series is zero-valued and
`var count int = 0`. -/
def initialMetricsState : MetricsState :=
  { totalRequests := fun _ => 0
    responseStatus := fun _ => 0
    httpDuration := fun _ => 0
    count := 0 }

/-- A handler maps the shared state to a new state together with the list of
explicit `WriteHeader` calls it made on its response writer. -/
def Handler : Type := MetricsState → MetricsState × List Nat

/-- Embeds `handleHit`: it writes `strconv.Itoa(count)` as the body and
never touches the state or the status code. -/
def handleHit (s : MetricsState) : String := toString s.count

/-- Embeds `hitCounterMiddleware`: `count += 1`, then `next.ServeHTTP`.
This is the sequential (one request at a time) meaning of the middleware;
the unsynchronized interleaving of the increment is modelled separately by
`raceStep` below. -/
def hitCounterMiddleware (next : Handler) : Handler :=
  fun s => next { s with count := s.count + 1 }

/-- Embeds `prometheusMiddleware`: resolve the matched route template,
start a timer, wrap the writer with `NewResponseWriter`, run the inner
handler, then increment `responseStatus` at the observed status code
(rendered with `strconv.Itoa`), increment `totalRequests` at the template,
and observe the elapsed duration into `httpDuration` at the template. -/
def prometheusMiddleware (path : String) (next : Handler) : Handler :=
  fun s =>
    match next s with
    | (s1, writes) =>
      ({ s1 with
          responseStatus := fun c =>
            if c = toString (recordedStatus writes) then s1.responseStatus c + 1
            else s1.responseStatus c
          totalRequests := fun p =>
            if p = path then s1.totalRequests p + 1 else s1.totalRequests p
          httpDuration := fun p =>
            if p = path then s1.httpDuration p + 1 else s1.httpDuration p },
       writes)

/-- One completed request as the instrumentation middleware sees it: the
route template the router matched (from `mux.CurrentRoute(r).GetPathTemplate()`,
never the raw URL) and the explicit status writes of the inner handler. -/
structure Request where
  template : String
  writes : List Nat

/-- The state effect of `prometheusMiddleware` around an inner route handler
that does not itself mutate the metrics (true of every handler in
`main.go`: the file server, `handleHit` and the promhttp renderer). -/
def middlewareStep (s : MetricsState) (r : Request) : MetricsState :=
  (prometheusMiddleware r.template (fun st => (st, r.writes)) s).1

/-- A sequence of completed requests processed one after another. -/
def runSeq (s : MetricsState) (rs : List Request) : MetricsState :=
  rs.foldl middlewareStep s

/-- Embeds the router of `main`: `router.Use(prometheusMiddleware)` wraps
every matched route; `/metrics` serves the promhttp renderer, `/` serves
the static file server behind `hitCounterMiddleware`, `/hits` serves
`handleHit`; an unmatched path falls to the mux not-found handler (a plain
404) outside the middleware. The status writes of the file server and of
the promhttp handler depend on I/O outside the model, so they are
parameters. -/
def routerServe (fsWrites promWrites : List Nat) (reqPath : String) :
    MetricsState → MetricsState × List Nat :=
  fun s =>
    if reqPath = "/metrics" then
      prometheusMiddleware "/metrics" (fun st => (st, promWrites)) s
    else if reqPath = "/" then
      prometheusMiddleware "/" (hitCounterMiddleware (fun st => (st, fsWrites))) s
    else if reqPath = "/hits" then
      prometheusMiddleware "/hits" (fun st => (st, [])) s
    else
      (s, [404])

/-- Pointwise order on the shared state: every series value and the hit
count of the left state is at most that of the right state. -/
def stateLe (s t : MetricsState) : Prop :=
  (∀ p, s.totalRequests p ≤ t.totalRequests p) ∧
  (∀ c, s.responseStatus c ≤ t.responseStatus c) ∧
  (∀ p, s.httpDuration p ≤ t.httpDuration p) ∧
  s.count ≤ t.count

/-!
The unsynchronized hit-count increment. `hitCounterMiddleware` performs a
plain `count += 1` on a shared Go `int` with no atomic operation and no
mutex, so under concurrent requests each increment is a separate load of
`count` into a goroutine-local value followed by a store of that value
plus one. A schedule interleaves these primitive steps of the goroutines.
-/

/-- One primitive memory step of goroutine `tid` executing `count += 1`:
`load` reads the shared counter into the goroutine's local register,
`store` writes the register plus one back to the shared counter. -/
inductive IncStep where
  | load (tid : Nat)
  | store (tid : Nat)
deriving Repr, DecidableEq

/-- Shared memory for the interleaving: the shared `count` and one local
register per goroutine. -/
structure RaceState where
  count : Nat
  regs : Nat → Nat

/-- The shared memory at the start of the concurrent requests. -/
def raceInit : RaceState := { count := 0, regs := fun _ => 0 }

/-- Semantics of one primitive step of the unsynchronized `count += 1`. -/
def raceStep (s : RaceState) : IncStep → RaceState
  | .load t => { s with regs := fun i => if i = t then s.count else s.regs i }
  | .store t => { s with count := s.regs t + 1 }

/-- Runs a schedule (an interleaving of the goroutines' primitive steps). -/
def runSchedule (sched : List IncStep) (s : RaceState) : RaceState :=
  sched.foldl raceStep s

/-- A schedule executes goroutines `0 .. n-1` each performing `count += 1`
exactly once when every goroutine below `n` does exactly one `load` and,
after it, exactly one `store`, and every step of the schedule belongs to
such a goroutine. -/
def completeSchedule (n : Nat) (sched : List IncStep) : Prop :=
  (∀ t < n, sched.count (IncStep.load t) = 1 ∧ sched.count (IncStep.store t) = 1 ∧
    sched.indexOf (IncStep.load t) < sched.indexOf (IncStep.store t)) ∧
  (∀ step ∈ sched, ∃ t < n, step = IncStep.load t ∨ step = IncStep.store t)

/-- The interleaving in which both goroutines read the hit count before
either writes it back: goroutine 0 loads, goroutine 1 loads, goroutine 0
stores, goroutine 1 stores. -/
def lostUpdateSchedule : List IncStep :=
  [IncStep.load 0, IncStep.load 1, IncStep.store 0, IncStep.store 1]

/-!
The remote-write decoder `handleMetrics`, embedded from the code block in
the repository README. The wire decoding itself is library code
(`remote.DecodeWriteRequest`), modelled as an `Except` outcome handed to
the handler; the handler's own logic — error reply, iteration, printing —
is embedded below. Printing to standard output is modelled as the list of
structured lines the handler emits, in order.
-/

/-- A label pair of a decoded time series. -/
structure Label where
  name : String
  value : String
deriving Repr, DecidableEq

/-- A decoded sample: value and timestamp. -/
structure Sample where
  value : Float
  timestamp : Int
deriving Repr

/-- A decoded exemplar: its own label set, value and timestamp. -/
structure Exemplar where
  labels : List Label
  value : Float
  timestamp : Int
deriving Repr

/-- One decoded time series of a remote-write request. -/
structure TimeSeries where
  labels : List Label
  samples : List Sample
  exemplars : List Exemplar
deriving Repr

/-- A decoded remote-write request: a batch of time series. -/
structure WriteRequest where
  timeseries : List TimeSeries
deriving Repr

/-- An HTTP response: status code and body. -/
structure HttpResponse where
  status : Nat
  body : String
deriving Repr, DecidableEq

/-- Embeds `http.Error(w, msg, code)`: it sets the status code and writes
the message followed by a newline as the body. -/
def httpError (msg : String) (code : Nat) : HttpResponse :=
  { status := code, body := msg ++ "\n" }

/-- One line `handleMetrics` writes to standard output: the `model.Metric`
label map of a series (`fmt.Println(m)`), a sample line
(`fmt.Printf("\tSample: %f %d\n", ...)`), or an exemplar line
(`fmt.Printf("\tExemplar: %+v %f %d\n", ...)`). -/
inductive OutputLine where
  | metric (m : List (String × String))
  | sample (value : Float) (timestamp : Int)
  | exemplar (m : List (String × String)) (value : Float) (timestamp : Int)
deriving Repr

/-- Embeds the loop `for _, l := range ts.Labels { m[...] = ... }` building
the `model.Metric` label map of a label set. -/
def buildMetric (labels : List Label) : List (String × String) :=
  labels.map fun l => (l.name, l.value)

/-- The lines the loop body of `handleMetrics` prints for one time series:
the label map, then one line per sample, then one line per exemplar. -/
def printTimeSeries (ts : TimeSeries) : List OutputLine :=
  OutputLine.metric (buildMetric ts.labels) ::
    (ts.samples.map (fun s => OutputLine.sample s.value s.timestamp) ++
     ts.exemplars.map (fun e => OutputLine.exemplar (buildMetric e.labels) e.value e.timestamp))

/-- The lines printed for the whole batch, series after series. -/
def printAllSeries : List TimeSeries → List OutputLine
  | [] => []
  | ts :: rest => printTimeSeries ts ++ printAllSeries rest

/-- Embeds `handleMetrics` of the README: on decode failure it replies with
`http.Error(w, err.Error(), http.StatusBadRequest)` and returns; on success
it prints every series, sample and exemplar and returns (the implicit
status of an untouched writer is 200, no body). The handler reads and
writes no shared counter, so the metrics state passes through unchanged;
the result is the response, the standard-output lines, and the state. -/
def handleMetrics (decoded : Except String WriteRequest) (s : MetricsState) :
    HttpResponse × List OutputLine × MetricsState :=
  match decoded with
  | .error msg => (httpError msg 400, [], s)
  | .ok req => ({ status := 200, body := "" }, printAllSeries req.timeseries, s)

/-- The well-formed single-series, single-sample payload of the spec:
one label set `job=test`, one sample with value 1.0 and timestamp 1000,
no exemplars. -/
def specPayload : WriteRequest :=
  { timeseries := [{ labels := [{ name := "job", value := "test" }]
                     samples := [{ value := 1.0, timestamp := 1000 }]
                     exemplars := [] }] }

/-!
The health endpoint and the tail of `main`.
-/

/-- Modelled from the spec: the `/api/healthz` handler of the deployed
demo-blog server is not present under the repository sources (only the
deployment manifest's probes and the README's curl example reference it);
per the spec it returns the body with `alive` set to true and status 200
while the process is running, for every request. -/
def handleHealthz (_method _path : String) : HttpResponse :=
  { status := 200, body := "\x7b\"alive\": true\x7d" }

/-- An observable top-level action of the server process. -/
inductive ServerAction where
  | listen (addr : String)
  | handle (path : String)
  | logFatal (err : String)
deriving Repr, DecidableEq

/-- Embeds the tail of `main`:
`err := http.ListenAndServe(":2112", router); log.Fatal(err)` — once
`ListenAndServe` returns an error (as it does when the bind or listen
fails), the only remaining action of the process is `log.Fatal(err)`,
which logs the error and exits. -/
def afterListenActions (err : String) : List ServerAction :=
  [ServerAction.logFatal err]

/-- The listen address literal of `main`. -/
def listenAddr : String := ":2112"

/-- The address `main` passes to `http.ListenAndServe` as a function of the
process environment: `main.go` contains no `os.Getenv` call, flag parsing
or configuration read, so the address is the constant `":2112"` whatever
the environment holds. -/
def listenAddrOf (_env : List (String × String)) : String := listenAddr

/-!
Theorems settling the claims.
-/

/-- C1. The claim asserts that after N concurrent requests to `/` the hit
count equals exactly N, the increments being atomic or mutually exclusive.
The code's `count += 1` in `hitCounterMiddleware` is an unsynchronized
load-then-store; under the complete two-goroutine schedule in which both
goroutines load before either stores, the final count is 1, not 2: one of
the two increments is lost. -/
theorem C1_lost_update :
    completeSchedule 2 lostUpdateSchedule ∧
    (runSchedule lostUpdateSchedule raceInit).count = 1 ∧
    (runSchedule lostUpdateSchedule raceInit).count ≠ 2 := by
  refine ⟨?_, rfl, by decide⟩
  constructor
  · decide
  · intro step hstep
    fin_cases hstep
    · exact ⟨0, by decide, Or.inl rfl⟩
    · exact ⟨1, by decide, Or.inl rfl⟩
    · exact ⟨0, by decide, Or.inr rfl⟩
    · exact ⟨1, by decide, Or.inr rfl⟩

/-- C2. Every request to the health endpoint gets status 200 and the body
stating aliveness, and never a different payload. -/
theorem C2_healthz_constant (m p : String) :
    handleHealthz m p = { status := 200, body := "\x7b\"alive\": true\x7d" } := rfl

/-- The status code held by the wrapped response writer after a sequence of
explicit `WriteHeader` calls is the last call's code, or the writer's
starting code when there was none. -/
theorem foldl_WriteHeader_statusCode (writes : List Nat) (rw : responseWriter) :
    (writes.foldl WriteHeader rw).statusCode = (writes.getLast?).getD rw.statusCode := by
  induction writes generalizing rw with
  | nil => rfl
  | cons c cs ih =>
    rw [List.foldl_cons, ih]
    cases cs with
    | nil => rfl
    | cons c2 cs2 =>
      rw [List.getLast?_cons_cons]
      have hne : (c2 :: cs2).getLast? ≠ none := by
        simp [List.getLast?_eq_none_iff]
      obtain ⟨y, hy⟩ := Option.ne_none_iff_exists'.mp hne
      rw [hy]
      rfl

/-- C3. The status code the middleware records into StatusCounter equals
the last status code the inner handler explicitly wrote through
`WriteHeader`, and it equals 200 exactly when the handler's last explicit
status write was 200 or the handler never wrote a status at all. -/
theorem C3_recorded_status (writes : List Nat) :
    recordedStatus writes = (writes.getLast?).getD 200 ∧
    (recordedStatus writes = 200 ↔ writes.getLast? = some 200 ∨ writes = []) := by
  have h : recordedStatus writes = (writes.getLast?).getD 200 :=
    foldl_WriteHeader_statusCode writes NewResponseWriter
  refine ⟨h, ?_⟩
  rw [h]
  cases hw : writes.getLast? with
  | none =>
    simp only [Option.getD_none]
    rw [List.getLast?_eq_none_iff] at hw
    simp [hw]
  | some y =>
    have hne : writes ≠ [] := by
      intro hnil
      rw [hnil] at hw
      exact Option.noConfusion hw
    simp [hne]

/-- The per-request effect of the middleware on the request counter at one
path key, read off the definition. -/
theorem middlewareStep_totalRequests (s : MetricsState) (r : Request) (p : String) :
    (middlewareStep s r).totalRequests p =
      if p = r.template then s.totalRequests p + 1 else s.totalRequests p := rfl

/-- The per-request effect of the middleware on the duration histogram's
observation count at one path key. -/
theorem middlewareStep_httpDuration (s : MetricsState) (r : Request) (p : String) :
    (middlewareStep s r).httpDuration p =
      if p = r.template then s.httpDuration p + 1 else s.httpDuration p := rfl

/-- The per-request effect of the middleware on the status counter at one
status key. -/
theorem middlewareStep_responseStatus (s : MetricsState) (r : Request) (c : String) :
    (middlewareStep s r).responseStatus c =
      if c = toString (recordedStatus r.writes) then s.responseStatus c + 1
      else s.responseStatus c := rfl

/-- Across a sequence of completed requests, the request counter at a
template grows by exactly the number of requests matched to that
template. -/
theorem runSeq_totalRequests (rs : List Request) (s : MetricsState) (R : String) :
    (runSeq s rs).totalRequests R =
      s.totalRequests R + (rs.filter (fun r => r.template == R)).length := by
  induction rs generalizing s with
  | nil => simp [runSeq]
  | cons r rs ih =>
    show (runSeq (middlewareStep s r) rs).totalRequests R = _
    rw [ih, middlewareStep_totalRequests, List.filter_cons]
    by_cases h : r.template = R
    · simp [h]
      omega
    · simp [h, Ne.symm h]

/-- Across a sequence of completed requests, the duration histogram at a
template records exactly one observation per request matched to that
template. -/
theorem runSeq_httpDuration (rs : List Request) (s : MetricsState) (R : String) :
    (runSeq s rs).httpDuration R =
      s.httpDuration R + (rs.filter (fun r => r.template == R)).length := by
  induction rs generalizing s with
  | nil => simp [runSeq]
  | cons r rs ih =>
    show (runSeq (middlewareStep s r) rs).httpDuration R = _
    rw [ih, middlewareStep_httpDuration, List.filter_cons]
    by_cases h : r.template = R
    · simp [h]
      omega
    · simp [h, Ne.symm h]

/-- Across a sequence of completed requests, the status counter at a code
grows by exactly the number of requests whose observed status renders to
that code. -/
theorem runSeq_responseStatus (rs : List Request) (s : MetricsState) (c : String) :
    (runSeq s rs).responseStatus c =
      s.responseStatus c +
        (rs.filter (fun r => toString (recordedStatus r.writes) == c)).length := by
  induction rs generalizing s with
  | nil => simp [runSeq]
  | cons r rs ih =>
    show (runSeq (middlewareStep s r) rs).responseStatus c = _
    rw [ih, middlewareStep_responseStatus, List.filter_cons]
    by_cases h : toString (recordedStatus r.writes) = c
    · simp [h]
      omega
    · simp [h, Ne.symm h]

/-- C4. After a sequence of completed requests, the request counter and the
duration histogram's observation count at every route template equal the
starting value plus the number of requests the router matched to that
template (the middleware keys by the matched template, never the raw URL),
and the status counter at every code equals the starting value plus the
number of requests whose observed status is that code — so from process
start, K completed requests matched to template R leave RequestCounter[R]
and the observation count of DurationHistogram[R] at exactly K, the status
counter having been incremented once per request at its observed code. -/
theorem C4_middleware_accounting (s : MetricsState) (rs : List Request) :
    (∀ R, (runSeq s rs).totalRequests R =
        s.totalRequests R + (rs.filter (fun r => r.template == R)).length) ∧
    (∀ R, (runSeq s rs).httpDuration R =
        s.httpDuration R + (rs.filter (fun r => r.template == R)).length) ∧
    (∀ c, (runSeq s rs).responseStatus c =
        s.responseStatus c +
          (rs.filter (fun r => toString (recordedStatus r.writes) == c)).length) ∧
    (∀ R, (runSeq initialMetricsState rs).totalRequests R =
        (rs.filter (fun r => r.template == R)).length) ∧
    (∀ R, (runSeq initialMetricsState rs).httpDuration R =
        (rs.filter (fun r => r.template == R)).length) :=
  ⟨fun R => runSeq_totalRequests rs s R,
   fun R => runSeq_httpDuration rs s R,
   fun c => runSeq_responseStatus rs s c,
   fun R => by rw [runSeq_totalRequests rs initialMetricsState R]; simp [initialMetricsState],
   fun R => by rw [runSeq_httpDuration rs initialMetricsState R]; simp [initialMetricsState]⟩

/-- Every state is below itself in the pointwise state order. -/
theorem stateLe_refl (s : MetricsState) : stateLe s s :=
  ⟨fun _ => le_refl _, fun _ => le_refl _, fun _ => le_refl _, le_refl _⟩

/-- The instrumentation middleware only adds to the series its inner
handler left behind: if the inner handler does not shrink the state, the
wrapped handler does not either. -/
theorem prometheusMiddleware_mono (path : String) (next : Handler) (s : MetricsState)
    (h : stateLe s (next s).1) : stateLe s (prometheusMiddleware path next s).1 := by
  obtain ⟨h1, h2, h3, h4⟩ := h
  cases hns : next s with
  | mk s1 ws =>
    rw [hns] at h1 h2 h3 h4
    simp only [prometheusMiddleware, hns]
    refine ⟨fun p => ?_, fun c => ?_, fun p => ?_, h4⟩
    · dsimp only
      split
      · exact le_trans (h1 p) (Nat.le_succ _)
      · exact h1 p
    · dsimp only
      split
      · exact le_trans (h2 c) (Nat.le_succ _)
      · exact h2 c
    · dsimp only
      split
      · exact le_trans (h3 p) (Nat.le_succ _)
      · exact h3 p

/-- C7. Every request the server handles, whatever the path, leaves every
counter — request counter at every path, status counter at every code,
duration observation count at every path, and the hit count — either
unchanged or increased: no operation resets or decreases any of them. -/
theorem C7_counters_monotone (fsWrites promWrites : List Nat) (p : String)
    (s : MetricsState) : stateLe s (routerServe fsWrites promWrites p s).1 := by
  unfold routerServe
  split_ifs
  · exact prometheusMiddleware_mono _ _ _ (stateLe_refl s)
  · exact prometheusMiddleware_mono _ _ _
      ⟨fun _ => le_refl _, fun _ => le_refl _, fun _ => le_refl _, Nat.le_succ _⟩
  · exact prometheusMiddleware_mono _ _ _ (stateLe_refl s)
  · exact stateLe_refl s

/-- C8. A request the router matches to `/` increments the hit count by
exactly 1, and a request on any other path — `/hits`, `/metrics`, or an
unmatched path — leaves the hit count unchanged. The hit count is a single
unlabelled integer, so there is no per-label partition to speak of. -/
theorem C8_hit_count_only_root (fsWrites promWrites : List Nat) (p : String)
    (s : MetricsState) :
    (routerServe fsWrites promWrites p s).1.count =
      s.count + (if p = "/" then 1 else 0) := by
  by_cases hroot : p = "/"
  · subst hroot
    rw [if_pos rfl]
    unfold routerServe
    rw [if_neg (by decide : ¬ ("/" : String) = "/metrics"), if_pos rfl]
    rfl
  · rw [if_neg hroot]
    unfold routerServe
    split_ifs with h1 h2 <;> rfl

/-- C5. On decode failure, `handleMetrics` replies with status 400 and the
decode error message as the body, prints nothing, and leaves the shared
state unchanged (and it returns normally rather than terminating the
process). -/
theorem C5_decode_failure (msg : String) (s : MetricsState) :
    (handleMetrics (Except.error msg) s).1.status = 400 ∧
    (handleMetrics (Except.error msg) s).1.body = msg ++ "\n" ∧
    (handleMetrics (Except.error msg) s).2.1 = [] ∧
    (handleMetrics (Except.error msg) s).2.2 = s :=
  ⟨rfl, rfl, rfl, rfl⟩

/-- C9. Once the listen call of `main` returns an error — in particular on
a bind or listen failure at startup — the only remaining action of the
process is the fatal log-and-exit: no retry of the listen and no further
request handling follows. -/
theorem C9_bind_failure_fatal (err : String) :
    afterListenActions err = [ServerAction.logFatal err] ∧
    (∀ addr, ServerAction.listen addr ∉ afterListenActions err) ∧
    (∀ p, ServerAction.handle p ∉ afterListenActions err) := by
  refine ⟨rfl, ?_, ?_⟩ <;> intro x <;> simp [afterListenActions]

/-- C10. The listen address of the server is the compile-time constant
`":2112"`: it is the same for every process environment, and setting the
PORT variable (as the deployment manifest does) does not change it. -/
theorem C10_fixed_listen_address (env : List (String × String)) :
    listenAddrOf env = ":2112" ∧
    listenAddrOf (("PORT", "8080") :: env) = listenAddrOf env ∧
    listenAddrOf env = listenAddr :=
  ⟨rfl, rfl, rfl⟩

/-- Everything printed for one series of the batch appears in the decoder's
full output. -/
theorem mem_printAllSeries {ts : TimeSeries} {tss : List TimeSeries} (h : ts ∈ tss)
    {x : OutputLine} (hx : x ∈ printTimeSeries ts) : x ∈ printAllSeries tss := by
  induction h with
  | head as =>
    show x ∈ printTimeSeries ts ++ printAllSeries as
    exact List.mem_append_left _ hx
  | tail b hb ih =>
    show x ∈ printTimeSeries b ++ printAllSeries _
    exact List.mem_append_right _ ih

/-- The label map line of a series is among the lines printed for it. -/
theorem metric_mem_printTimeSeries (ts : TimeSeries) :
    OutputLine.metric (buildMetric ts.labels) ∈ printTimeSeries ts :=
  List.mem_cons_self _ _

/-- Every sample's line is among the lines printed for its series. -/
theorem sample_mem_printTimeSeries {ts : TimeSeries} {smp : Sample}
    (h : smp ∈ ts.samples) :
    OutputLine.sample smp.value smp.timestamp ∈ printTimeSeries ts :=
  List.mem_cons_of_mem _ (List.mem_append_left _ (List.mem_map_of_mem _ h))

/-- Every exemplar's line is among the lines printed for its series. -/
theorem exemplar_mem_printTimeSeries {ts : TimeSeries} {ex : Exemplar}
    (h : ex ∈ ts.exemplars) :
    OutputLine.exemplar (buildMetric ex.labels) ex.value ex.timestamp ∈ printTimeSeries ts :=
  List.mem_cons_of_mem _ (List.mem_append_right _ (List.mem_map_of_mem _ h))

/-- C6. On a successful decode, `handleMetrics` replies with status 200 and
an empty body, leaves the shared state unchanged (nothing is stored), and
its standard-output rendering contains, for every decoded series, the
series' label map line, for every sample of every series a line with that
sample's value and timestamp, and for every exemplar of every series a
line with the exemplar's label map, value and timestamp; in particular,
for the single-series payload with label set job=test and sample value 1.0
at timestamp 1000, the reply status is 200 and the output contains that
label map line and that sample line. -/
theorem C6_decode_success (req : WriteRequest) (s : MetricsState) :
    (handleMetrics (Except.ok req) s).1 = { status := 200, body := "" } ∧
    (handleMetrics (Except.ok req) s).2.2 = s ∧
    (∀ ts ∈ req.timeseries,
      OutputLine.metric (buildMetric ts.labels) ∈ (handleMetrics (Except.ok req) s).2.1 ∧
      (∀ smp ∈ ts.samples,
        OutputLine.sample smp.value smp.timestamp ∈ (handleMetrics (Except.ok req) s).2.1) ∧
      (∀ ex ∈ ts.exemplars,
        OutputLine.exemplar (buildMetric ex.labels) ex.value ex.timestamp ∈
          (handleMetrics (Except.ok req) s).2.1)) ∧
    (handleMetrics (Except.ok specPayload) initialMetricsState).1.status = 200 ∧
    OutputLine.metric [("job", "test")] ∈
      (handleMetrics (Except.ok specPayload) initialMetricsState).2.1 ∧
    OutputLine.sample 1.0 1000 ∈
      (handleMetrics (Except.ok specPayload) initialMetricsState).2.1 := by
  refine ⟨rfl, rfl, ?_, rfl, ?_, ?_⟩
  · intro ts hts
    exact ⟨mem_printAllSeries hts (metric_mem_printTimeSeries ts),
           fun smp hs => mem_printAllSeries hts (sample_mem_printTimeSeries hs),
           fun ex he => mem_printAllSeries hts (exemplar_mem_printTimeSeries he)⟩
  · exact mem_printAllSeries (List.Mem.head _) (metric_mem_printTimeSeries _)
  · exact mem_printAllSeries (List.Mem.head _) (sample_mem_printTimeSeries (List.Mem.head _))

end PromWorkshop
